import Mathlib

/-!
Verification development for the DCP streaming subsystem core of ep-engine.

The definitions below are a shallow embedding of the C++ sources:
the connection registry `DcpConnMap` (dcpconnmap.cc), the shared
checkpoint-processor task (dcp/stream.h) and the UPR consumer entry
points (upr-consumer.cc).  Machine integers become `Nat` or `Int`,
C++ `double` arithmetic becomes exact rational arithmetic over `ℚ`
with an explicit floor at the point of the integral cast, fallible
operations return explicit status codes, and stateful code is explicit
state passing.  Collaborator code that lives outside the given sources
(the body of `DcpConsumer::addStream`, `ConnHandlerMutate`,
`ConnHandlerDelete`, `EventuallyPersistentEngine::flush`,
`DcpConsumer::isStreamPresent`) is kept abstract, as function-valued
parameters or fields, so that theorems quantify over every possible
behaviour of those collaborators.
-/

/-- Engine status codes (subset of ENGINE_ERROR_CODE used by the embedded code). -/
inductive ENGINE_ERROR_CODE where
  | ENGINE_SUCCESS
  | ENGINE_KEY_EEXISTS
  | ENGINE_ENOTSUP
  | ENGINE_DISCONNECT
  | ENGINE_TMPFAIL
  deriving DecidableEq, Repr

/-! ## DcpConnMap: passive stream admission (dcpconnmap.cc lines 71-100) -/

/-- Connection entry as inspected by `DcpConnMap::isPassiveStreamConnected_UNLOCKED`.
The field `isConsumer` models whether the `dynamic_cast<DcpConsumer*>` succeeds;
`isStreamPresent` models `DcpConsumer::isStreamPresent(vbucket)`, whose body is
outside the given sources, so it is kept fully abstract as a boolean-valued field
(for a producer the field is never consulted by the embedded code). -/
structure DcpConn where
  isConsumer : Bool
  isStreamPresent : Nat → Bool

/-- Embedding of `DcpConnMap::isPassiveStreamConnected_UNLOCKED`: walk the `all`
list and report whether some DCP consumer already has a stream for `vbucket`. -/
def isPassiveStreamConnected (all : List DcpConn) (vbucket : Nat) : Bool :=
  all.any (fun c => c.isConsumer && c.isStreamPresent vbucket)

/-- Embedding of `DcpConnMap::addPassiveStream`.  The target connection is
represented by its abstract `addStream` behaviour.  The second component of the
result records whether `conn.addStream` was invoked; the `all` list is read-only
in the source function, so no updated registry is returned. -/
def addPassiveStream (all : List DcpConn)
    (addStream : Nat → Nat → Nat → ENGINE_ERROR_CODE)
    (opq vbucket flags : Nat) : ENGINE_ERROR_CODE × Bool :=
  if isPassiveStreamConnected all vbucket then
    (ENGINE_ERROR_CODE.ENGINE_KEY_EEXISTS, false)
  else
    (addStream opq vbucket flags, true)

/-! ## DcpConnMap: backfill admission (dcpconnmap.cc lines 32-34, 353-385) -/

/-- Constant `DcpConnMap::dbFileMem = 10 * 1024`. -/
def dbFileMem : Nat := 10 * 1024

/-- Constant `DcpConnMap::numBackfillsThreshold = 4096`. -/
def numBackfillsThreshold : Nat := 4096

/-- Constant `DcpConnMap::numBackfillsMemThreshold = 1` (interpreted as a percentage). -/
def numBackfillsMemThreshold : Nat := 1

/-- The `size_t max = maxDataSize * numBackfillsMemThresholdPercent / dbFileMem`
computation of `DcpConnMap::updateMaxActiveSnoozingBackfills`.  The C++ code
performs the multiply and divide in `double`; this embedding performs them as
exact rationals, with the truncating cast back to `size_t` as a floor (the value
is nonnegative, so truncation toward zero is the floor). -/
def updateMaxCalc (maxDataSize : Nat) : Nat :=
  Nat.floor ((maxDataSize : ℚ) * ((numBackfillsMemThreshold : ℚ) / 100) / (dbFileMem : ℚ))

/-- The new value `std::max(size_t(1), std::min(max, size_t(numBackfillsThreshold)))`
assigned by `DcpConnMap::updateMaxActiveSnoozingBackfills`. -/
def updateMaxActiveSnoozingBackfills (maxDataSize : Nat) : Nat :=
  max 1 (min (updateMaxCalc maxDataSize) numBackfillsThreshold)

/-- Backfill admission counter state of a `DcpConnMap`.  The counter
`numActiveSnoozingBackfills` is an unsigned field in C++; it is modelled as an
`Int` so that the absence of underflow is a provable property rather than a
consequence of the model type. -/
structure BackfillState where
  numActiveSnoozingBackfills : Int
  maxActiveSnoozingBackfills : Nat
  deriving DecidableEq, Repr

/-- Embedding of `DcpConnMap::canAddBackfillToActiveQ`: increment the counter
and return true when it is below the maximum, otherwise leave the state alone
and return false. -/
def canAddBackfillToActiveQ (st : BackfillState) : BackfillState × Bool :=
  if st.numActiveSnoozingBackfills < (st.maxActiveSnoozingBackfills : Int) then
    ({ st with numActiveSnoozingBackfills := st.numActiveSnoozingBackfills + 1 }, true)
  else
    (st, false)

/-- Embedding of `DcpConnMap::decrNumActiveSnoozingBackfills`: decrement only
when the counter is strictly positive (the else branch only logs a warning). -/
def decrNumActiveSnoozingBackfills (st : BackfillState) : BackfillState :=
  if 0 < st.numActiveSnoozingBackfills then
    { st with numActiveSnoozingBackfills := st.numActiveSnoozingBackfills - 1 }
  else
    st

/-- State effect of `DcpConnMap::updateMaxActiveSnoozingBackfills` on the
admission counters: the maximum is recomputed, the counter is untouched. -/
def updateMaxOp (st : BackfillState) (maxDataSize : Nat) : BackfillState :=
  { st with maxActiveSnoozingBackfills := updateMaxActiveSnoozingBackfills maxDataSize }

/-- Operations that touch the backfill admission counters. -/
inductive BackfillOp where
  | canAdd
  | decr
  | updateMax (maxDataSize : Nat)
  deriving DecidableEq, Repr

/-- One step of the admission-counter state machine. -/
def backfillStep (st : BackfillState) : BackfillOp → BackfillState
  | BackfillOp.canAdd => (canAddBackfillToActiveQ st).1
  | BackfillOp.decr => decrNumActiveSnoozingBackfills st
  | BackfillOp.updateMax m => updateMaxOp st m

/-- Run a sequence of admission-counter operations. -/
def backfillRun (st : BackfillState) : List BackfillOp → BackfillState
  | [] => st
  | op :: ops => backfillRun (backfillStep st op) ops

/-- Initial admission-counter state established by the `DcpConnMap` constructor:
`numActiveSnoozingBackfills = 0` followed by
`updateMaxActiveSnoozingBackfills(engine.getEpStats().getMaxDataSize())`. -/
def mkDcpConnMap (maxDataSize : Nat) : BackfillState :=
  { numActiveSnoozingBackfills := 0,
    maxActiveSnoozingBackfills := updateMaxActiveSnoozingBackfills maxDataSize }

/-- The P6 invariant of the spec: the active count never exceeds the maximum. -/
def backfillInv (st : BackfillState) : Prop :=
  st.numActiveSnoozingBackfills ≤ (st.maxActiveSnoozingBackfills : Int)

/-- Concrete operation trace used to analyse the P6 invariant: fill the quota,
then shrink the maximum via `updateMaxActiveSnoozingBackfills(0)`. -/
def cexTrace : List BackfillOp :=
  [BackfillOp.canAdd, BackfillOp.canAdd, BackfillOp.updateMax 0]

/-! ## CheckpointProcessor work queue (dcp/stream.h lines 335-389) -/

/-- Stream handle as seen by `ActiveStreamCheckpointProcessorTask`: only
`getVBucket()` is consulted by the queue operations. -/
structure StreamT where
  vb : Nat
  deriving DecidableEq, Repr

/-- Work-queue state of `ActiveStreamCheckpointProcessorTask`: the FIFO `queue`
of streams and the `std::set<uint16_t> queuedVbuckets` of vbucket ids. -/
structure CkptProcState where
  queue : List StreamT
  queuedVbuckets : Finset Nat

/-- Embedding of `ActiveStreamCheckpointProcessorTask::pushUnique`: enqueue the
stream only when its vbucket id is not yet in `queuedVbuckets`, inserting the id
on enqueue. -/
def pushUnique (s : StreamT) (st : CkptProcState) : CkptProcState :=
  if s.vb ∈ st.queuedVbuckets then st
  else { queue := st.queue ++ [s], queuedVbuckets := insert s.vb st.queuedVbuckets }

/-- Embedding of `ActiveStreamCheckpointProcessorTask::queuePop`: pop the front
stream (if any) and erase its vbucket id from `queuedVbuckets`.  Returns the
popped stream together with the updated state. -/
def queuePop (st : CkptProcState) : Option StreamT × CkptProcState :=
  match st.queue with
  | [] => (none, st)
  | s :: rest => (some s, { queue := rest, queuedVbuckets := st.queuedVbuckets.erase s.vb })

/-- The dedup invariant (spec P7): the vbucket ids of the queued streams are
duplicate-free, and `queuedVbuckets` is exactly that set of ids. -/
def ckptInv (st : CkptProcState) : Prop :=
  (st.queue.map StreamT.vb).Nodup ∧ st.queuedVbuckets = (st.queue.map StreamT.vb).toFinset

/-! ## DcpConnMap: connection creation (dcpconnmap.cc lines 45-69, 102-126) -/

/-- Connection kind recorded at creation time. -/
inductive ConnKind where
  | producer (notifyOnly : Bool)
  | consumer
  deriving DecidableEq, Repr

/-- Registry entry for a DCP connection: the owning cookie, the logical name,
the disconnect flag, and the kind. -/
structure Connection where
  cookie : Nat
  name : String
  disconnect : Bool
  kind : ConnKind
  deriving DecidableEq, Repr

/-- Registry state of `ConnMap` used by `newProducer` and `newConsumer`: the
ordered list `all` and the cookie-indexed map `map_`. -/
structure ConnMapState where
  all : List Connection
  map_ : Nat → Option Connection

/-- Embedding of the name-collision loop shared by `DcpConnMap::newConsumer` and
`DcpConnMap::newProducer`: find the first connection whose name equals
`conn_name`, call `setDisconnect(true)` on it and erase it from `all`.  The
second component returns the marked connection (with its disconnect flag set),
recording the `setDisconnect(true)` side effect for observation. -/
def markAndErase (conn_name : String) : List Connection → List Connection × Option Connection
  | [] => ([], none)
  | c :: rest =>
    if c.name = conn_name then (rest, some { c with disconnect := true })
    else
      let r := markAndErase conn_name rest
      (c :: r.1, r.2)

/-- Embedding of `DcpConnMap::newConsumer`: build `conn_name` by appending the
user name to the protocol tag, mark and erase any same-named connection, append
the new connection to `all` and bind it in `map_`.  The result carries the new
state, the created connection and the marked (displaced) connection, if any. -/
def newConsumer (st : ConnMapState) (cookie : Nat) (name : String) :
    ConnMapState × Connection × Option Connection :=
  let conn_name := "eq_dcpq:" ++ name
  let r := markAndErase conn_name st.all
  let dc : Connection :=
    { cookie := cookie, name := conn_name, disconnect := false, kind := ConnKind.consumer }
  ({ all := r.1 ++ [dc],
     map_ := fun k => if k = cookie then some dc else st.map_ k }, dc, r.2)

/-- Embedding of `DcpConnMap::newProducer`; identical registry handling to
`newConsumer` except the created connection is a producer. -/
def newProducer (st : ConnMapState) (cookie : Nat) (name : String) (notifyOnly : Bool) :
    ConnMapState × Connection × Option Connection :=
  let conn_name := "eq_dcpq:" ++ name
  let r := markAndErase conn_name st.all
  let dc : Connection :=
    { cookie := cookie, name := conn_name, disconnect := false,
      kind := ConnKind.producer notifyOnly }
  ({ all := r.1 ++ [dc],
     map_ := fun k => if k = cookie then some dc else st.map_ k }, dc, r.2)

/-! ## DcpConnMap::manageConnections (dcpconnmap.cc lines 259-307) -/

/-- Connection view used by `DcpConnMap::manageConnections`.  The field
`notifiable` models whether `dynamic_cast<Notifiable*>` succeeds; `paused` and
`sentNotify` are the `Notifiable` flags; the remaining fields are the
`ConnHandler` flags and the last walk time consulted by the reaper. -/
structure ReaperConn where
  cookie : Nat
  notifiable : Bool
  paused : Bool
  doDisconnect : Bool
  reserved : Bool
  sentNotify : Bool
  lastWalkTime : Nat
  deriving DecidableEq, Repr

/-- Constant `const int maxIdleTime = 5` of `DcpConnMap::manageConnections`. -/
def maxIdleTime : Nat := 5

/-- The collection filter of the first loop of `manageConnections`: notifiable,
paused or marked for disconnect, reserved, and either never notified or idle for
longer than `maxIdleTime`. -/
def shouldCollect (now : Nat) (c : ReaperConn) : Bool :=
  c.notifiable && (c.paused || c.doDisconnect) && c.reserved &&
    (!c.sentNotify || decide (c.lastWalkTime + maxIdleTime < now))

/-- Embedding of `DcpConnMap::manageConnections` over one pass: the dead
connections are all drained for release (first component), and the connections
collected by `shouldCollect` and still reserved in the second loop receive
`notifyIOComplete` (second component). -/
def manageConnections (now : Nat) (deadConnections : List ReaperConn)
    (map_ : List ReaperConn) : List ReaperConn × List ReaperConn :=
  let toNotify := map_.filter (shouldCollect now)
  (deadConnections, toNotify.filter (fun c => c.reserved))

/-! ## UPR consumer entry points (upr-consumer.cc lines 66-151) -/

/-- Metadata record built by `uprDeletion` (`ItemMetaData(cas, seqno, flags, exptime)`). -/
structure ItemMetaData where
  cas : Nat
  revSeqno : Nat
  flags : Nat
  exptime : Nat
  deriving DecidableEq, Repr

/-- Opaque record of a store-level side effect applied to a vbucket; the
embedded entry points only ever produce the empty effect list themselves, all
other effects come from the abstract collaborators. -/
structure VBucketEffect where
  vbucket : Nat
  payload : Nat
  deriving DecidableEq, Repr

/-- Abstract engine context for the UPR entry points.  `getEngineSpecific` maps
a cookie to the attached consumer handle (if any); `connHandlerMutate`,
`connHandlerDelete` and `flush` are the collaborator functions called by
`uprMutation`, `uprDeletion` and `uprFlush`, whose bodies are outside the given
sources; `nextCas` models `Item::nextCas()` and `defaultRevSeqNum` models the
constant `DEFAULT_REV_SEQ_NUM`. -/
structure EngineCtx where
  getEngineSpecific : Nat → Option Nat
  connHandlerMutate : Nat → List Nat → Nat → Nat → Nat → Nat → Nat → Nat → Bool →
    List Nat → Nat → ENGINE_ERROR_CODE × List VBucketEffect
  connHandlerDelete : Nat → List Nat → Nat → Nat → Bool → ItemMetaData →
    ENGINE_ERROR_CODE × List VBucketEffect
  nextCas : Nat
  defaultRevSeqNum : Nat
  flush : Nat → Nat → ENGINE_ERROR_CODE

/-- Embedding of `EventuallyPersistentEngine::uprMutation`: with no
engine-specific consumer attached to the cookie, return `ENGINE_DISCONNECT`
with no effects; otherwise build the key from the first `nkey` bytes and
delegate to `ConnHandlerMutate(consumer, k, cookie, flags, expiration, cas,
revSeqno, vbucket, true, value, nvalue)`. -/
def uprMutation (ctx : EngineCtx) (cookie opq : Nat) (key : List Nat) (nkey : Nat)
    (value : List Nat) (nvalue cas vbucket flags datatype bySeqno revSeqno
      expiration lockTime : Nat) : ENGINE_ERROR_CODE × List VBucketEffect :=
  match ctx.getEngineSpecific cookie with
  | none => (ENGINE_ERROR_CODE.ENGINE_DISCONNECT, [])
  | some consumer =>
    let k := key.take nkey
    ctx.connHandlerMutate consumer k cookie flags expiration cas revSeqno vbucket true
      value nvalue

/-- Embedding of `EventuallyPersistentEngine::uprDeletion`: with no
engine-specific consumer attached to the cookie, return `ENGINE_DISCONNECT`
with no effects; otherwise build the key and the `ItemMetaData` (cas defaulted
through `Item::nextCas()` when zero, revSeqno defaulted to
`DEFAULT_REV_SEQ_NUM` when zero) and delegate to `ConnHandlerDelete`. -/
def uprDeletion (ctx : EngineCtx) (cookie opq : Nat) (key : List Nat)
    (nkey cas vbucket bySeqno revSeqno : Nat) :
    ENGINE_ERROR_CODE × List VBucketEffect :=
  match ctx.getEngineSpecific cookie with
  | none => (ENGINE_ERROR_CODE.ENGINE_DISCONNECT, [])
  | some consumer =>
    let k := key.take nkey
    let cas0 := if cas = 0 then ctx.nextCas else cas
    let rev := if revSeqno ≠ 0 then revSeqno else ctx.defaultRevSeqNum
    ctx.connHandlerDelete consumer k cookie vbucket true
      { cas := cas0, revSeqno := rev, flags := 0, exptime := 0 }

/-- Embedding of `EventuallyPersistentEngine::uprExpiration`: forwards every
argument unchanged to `uprDeletion`. -/
def uprExpiration (ctx : EngineCtx) (cookie opq : Nat) (key : List Nat)
    (nkey cas vbucket bySeqno revSeqno : Nat) :
    ENGINE_ERROR_CODE × List VBucketEffect :=
  uprDeletion ctx cookie opq key nkey cas vbucket bySeqno revSeqno

/-- Embedding of `EventuallyPersistentEngine::uprFlush`: ignores `opq` and
`vbucket` and performs `flush(cookie, 0)`. -/
def uprFlush (ctx : EngineCtx) (cookie opq vbucket : Nat) : ENGINE_ERROR_CODE :=
  ctx.flush cookie 0

/-- Concrete engine context with no engine-specific data attached to any
cookie, used as a witness input. -/
def nullCtx : EngineCtx :=
  { getEngineSpecific := fun _ => none,
    connHandlerMutate := fun _ _ _ _ _ _ _ _ _ _ _ => (ENGINE_ERROR_CODE.ENGINE_SUCCESS, []),
    connHandlerDelete := fun _ _ _ _ _ _ => (ENGINE_ERROR_CODE.ENGINE_SUCCESS, []),
    nextCas := 1,
    defaultRevSeqNum := 1,
    flush := fun _ _ => ENGINE_ERROR_CODE.ENGINE_SUCCESS }

/-- Concrete registry entry used as a witness input for connection creation. -/
def connA : Connection :=
  { cookie := 1, name := "eq_dcpq:" ++ "rep", disconnect := false, kind := ConnKind.consumer }

/-- Concrete registry state holding only `connA`, used as a witness input. -/
def stA : ConnMapState :=
  { all := [connA], map_ := fun _ => none }

/-- Concrete reaper view of a paused, reserved, never-notified connection, used
as a witness input. -/
def reaperW : ReaperConn :=
  { cookie := 0, notifiable := true, paused := true, doDisconnect := false,
    reserved := true, sentNotify := false, lastWalkTime := 0 }

/-- Concrete consumer connection holding a passive stream for vbucket 7, used
as a witness input. -/
def consumer7 : DcpConn :=
  { isConsumer := true, isStreamPresent := fun v => v = 7 }

/-! ## Helper lemmas -/

/-- The rational computation of `updateMaxCalc` is exactly truncating natural
division by `100 * dbFileMem = 1024000`. -/
theorem updateMaxCalc_eq (m : Nat) : updateMaxCalc m = m / 1024000 := by
  unfold updateMaxCalc numBackfillsMemThreshold dbFileMem
  have h : (m : ℚ) * (((1 : Nat) : ℚ) / 100) / (((10 * 1024 : Nat) : ℚ))
      = (m : ℚ) / ((1024000 : Nat) : ℚ) := by
    push_cast
    ring
  rw [h, Nat.floor_div_nat, Nat.floor_natCast]

/-- Closed form of `updateMaxActiveSnoozingBackfills` over natural division. -/
theorem updateMax_eq_div (m : Nat) :
    updateMaxActiveSnoozingBackfills m = max 1 (min (m / 1024000) 4096) := by
  unfold updateMaxActiveSnoozingBackfills numBackfillsThreshold
  rw [updateMaxCalc_eq]

/-! ## Claim theorems -/

/-- C1: if a passive stream for the vbucket is already present on some consumer
connection in the registry, `addPassiveStream` returns `ENGINE_KEY_EEXISTS` and
does not invoke `addStream` on the new connection (and the registry itself is
never modified by the function); if no passive stream for the vbucket exists,
the call delegates to `conn.addStream(opaque, vbucket, flags)` and returns its
result. -/
theorem addPassiveStream_rejects_duplicate (all : List DcpConn)
    (addStream : Nat → Nat → Nat → ENGINE_ERROR_CODE) (opq vbucket flags : Nat) :
    (isPassiveStreamConnected all vbucket = true ↔
      ∃ c ∈ all, c.isConsumer = true ∧ c.isStreamPresent vbucket = true)
    ∧ (isPassiveStreamConnected all vbucket = true →
        addPassiveStream all addStream opq vbucket flags
          = (ENGINE_ERROR_CODE.ENGINE_KEY_EEXISTS, false))
    ∧ (isPassiveStreamConnected all vbucket = false →
        addPassiveStream all addStream opq vbucket flags
          = (addStream opq vbucket flags, true)) := by
  refine ⟨?_, ?_, ?_⟩
  · simp [isPassiveStreamConnected, List.any_eq_true, Bool.and_eq_true]
  · intro h
    simp [addPassiveStream, h]
  · intro h
    simp [addPassiveStream, h]

/-- Witness for C1: in a registry holding one consumer with a passive stream for
vbucket 7, adding a second passive stream for vbucket 7 is rejected with
`ENGINE_KEY_EEXISTS` and `addStream` is not called, while vbucket 8 is
delegated. -/
theorem addPassiveStream_rejects_duplicate_witness :
    addPassiveStream [consumer7] (fun _ _ _ => ENGINE_ERROR_CODE.ENGINE_SUCCESS) 0 7 0
      = (ENGINE_ERROR_CODE.ENGINE_KEY_EEXISTS, false)
    ∧ addPassiveStream [consumer7] (fun _ _ _ => ENGINE_ERROR_CODE.ENGINE_SUCCESS) 0 8 0
      = (ENGINE_ERROR_CODE.ENGINE_SUCCESS, true) :=
  ⟨(addPassiveStream_rejects_duplicate [consumer7]
      (fun _ _ _ => ENGINE_ERROR_CODE.ENGINE_SUCCESS) 0 7 0).2.1 (by decide),
   (addPassiveStream_rejects_duplicate [consumer7]
      (fun _ _ _ => ENGINE_ERROR_CODE.ENGINE_SUCCESS) 0 8 0).2.2 (by decide)⟩

/-- C2: `updateMaxActiveSnoozingBackfills` sets the maximum to
`maxDataSize * numBackfillsMemThreshold% / dbFileMem` (the exact rational
computation, truncated at the integral cast), clamped to the closed interval
`[1, numBackfillsThreshold]` with `numBackfillsThreshold = 4096`; equivalently
it equals `max 1 (min (maxDataSize / 1024000) 4096)` and always lies in
`[1, 4096]`. -/
theorem updateMaxActiveSnoozingBackfills_formula (m : Nat) :
    updateMaxActiveSnoozingBackfills m
      = max 1 (min (Nat.floor ((m : ℚ) * ((numBackfillsMemThreshold : ℚ) / 100)
          / (dbFileMem : ℚ))) numBackfillsThreshold)
    ∧ updateMaxActiveSnoozingBackfills m = max 1 (min (m / (100 * dbFileMem)) 4096)
    ∧ 1 ≤ updateMaxActiveSnoozingBackfills m
    ∧ updateMaxActiveSnoozingBackfills m ≤ 4096 := by
  refine ⟨rfl, ?_, ?_, ?_⟩
  · rw [updateMax_eq_div]
    norm_num [dbFileMem]
  · rw [updateMax_eq_div]
    exact le_max_left 1 _
  · rw [updateMax_eq_div]
    exact max_le (by norm_num) (min_le_right _ _)

/-- C7: `uprFlush` ignores its opaque and vbucket arguments and performs a
bucket-wide `flush(cookie, 0)`, returning that result for every input. -/
theorem uprFlush_bucket_wide (ctx : EngineCtx) (cookie opq vbucket opq2 vbucket2 : Nat) :
    uprFlush ctx cookie opq vbucket = ctx.flush cookie 0
    ∧ uprFlush ctx cookie opq vbucket = uprFlush ctx cookie opq2 vbucket2 :=
  ⟨rfl, rfl⟩

/-- C10: `uprExpiration` forwards its arguments unchanged to `uprDeletion` and
returns its result, so an expiration message has exactly the effect of the
corresponding deletion, for every engine context and every input. -/
theorem uprExpiration_eq_uprDeletion (ctx : EngineCtx) (cookie opq : Nat)
    (key : List Nat) (nkey cas vbucket bySeqno revSeqno : Nat) :
    uprExpiration ctx cookie opq key nkey cas vbucket bySeqno revSeqno
      = uprDeletion ctx cookie opq key nkey cas vbucket bySeqno revSeqno :=
  rfl

/-- One admission-counter step by `canAdd` or `decr` preserves the P6 invariant. -/
theorem backfillStep_preserves_inv (st : BackfillState) (op : BackfillOp)
    (hop : op = BackfillOp.canAdd ∨ op = BackfillOp.decr)
    (h : backfillInv st) : backfillInv (backfillStep st op) := by
  unfold backfillInv at h ⊢
  rcases hop with rfl | rfl
  · simp only [backfillStep, canAddBackfillToActiveQ]
    split
    · next hlt =>
      show st.numActiveSnoozingBackfills + 1 ≤ (st.maxActiveSnoozingBackfills : Int)
      omega
    · exact h
  · simp only [backfillStep, decrNumActiveSnoozingBackfills]
    split
    · next hpos =>
      show st.numActiveSnoozingBackfills - 1 ≤ (st.maxActiveSnoozingBackfills : Int)
      omega
    · exact h

/-- Running any sequence of `canAdd` and `decr` steps preserves the P6 invariant. -/
theorem backfillRun_preserves_inv (ops : List BackfillOp) :
    ∀ st : BackfillState,
      (∀ op ∈ ops, op = BackfillOp.canAdd ∨ op = BackfillOp.decr) →
      backfillInv st → backfillInv (backfillRun st ops) := by
  induction ops with
  | nil => intro st _ h; exact h
  | cons op ops ih =>
    intro st hops h
    exact ih _ (fun o ho => hops o (List.mem_cons_of_mem _ ho))
      (backfillStep_preserves_inv st op (hops op (List.mem_cons_self _ _)) h)

/-- Every admission-counter step keeps the counter nonnegative. -/
theorem backfillStep_nonneg (st : BackfillState) (op : BackfillOp)
    (h : 0 ≤ st.numActiveSnoozingBackfills) :
    0 ≤ (backfillStep st op).numActiveSnoozingBackfills := by
  cases op with
  | canAdd =>
    simp only [backfillStep, canAddBackfillToActiveQ]
    split
    · show 0 ≤ st.numActiveSnoozingBackfills + 1
      omega
    · exact h
  | decr =>
    simp only [backfillStep, decrNumActiveSnoozingBackfills]
    split
    · next hpos =>
      show 0 ≤ st.numActiveSnoozingBackfills - 1
      omega
    · exact h
  | updateMax m => exact h

/-- Running any sequence of admission-counter steps keeps the counter nonnegative. -/
theorem backfillRun_nonneg (ops : List BackfillOp) :
    ∀ st : BackfillState, 0 ≤ st.numActiveSnoozingBackfills →
      0 ≤ (backfillRun st ops).numActiveSnoozingBackfills := by
  induction ops with
  | nil => intro st h; exact h
  | cons op ops ih => intro st h; exact ih _ (backfillStep_nonneg st op h)

/-- C3 counterexample: starting from the constructor state for
`maxDataSize = 2048000` (maximum 2), two successful `canAddBackfillToActiveQ`
calls followed by `updateMaxActiveSnoozingBackfills(0)` (maximum clamped up to
1) leave `numActiveSnoozingBackfills = 2 > 1 = maxActiveSnoozingBackfills`, so
the invariant does not hold after every interleaving that includes
`updateMaxActiveSnoozingBackfills`. -/
theorem backfill_invariant_fails_after_updateMax :
    ¬ backfillInv (backfillRun (mkDcpConnMap 2048000) cexTrace) := by
  have h2 : updateMaxActiveSnoozingBackfills 2048000 = 2 := by
    rw [updateMax_eq_div]
    decide
  have h0 : updateMaxActiveSnoozingBackfills 0 = 1 := by
    rw [updateMax_eq_div]
    decide
  have hrun : backfillRun (mkDcpConnMap 2048000) cexTrace
      = { numActiveSnoozingBackfills := 2, maxActiveSnoozingBackfills := 1 } := by
    simp only [cexTrace, mkDcpConnMap, h2, h0, backfillRun, backfillStep,
      canAddBackfillToActiveQ, updateMaxOp]
    norm_num
  rw [hrun]
  unfold backfillInv
  norm_num

/-- C3 (amended): the invariant `numActiveSnoozingBackfills ≤
maxActiveSnoozingBackfills` holds after any interleaving of
`canAddBackfillToActiveQ` and `decrNumActiveSnoozingBackfills` operations
starting from the initial state; an `updateMaxActiveSnoozingBackfills` call can
break it by lowering the maximum below the current counter, as the
counterexample shows. -/
theorem backfill_invariant_canAdd_decr (maxDataSize : Nat) (ops : List BackfillOp)
    (hops : ∀ op ∈ ops, op = BackfillOp.canAdd ∨ op = BackfillOp.decr) :
    backfillInv (backfillRun (mkDcpConnMap maxDataSize) ops) := by
  apply backfillRun_preserves_inv ops _ hops
  unfold backfillInv mkDcpConnMap
  exact Int.natCast_nonneg _

/-- Witness for the amended C3: a concrete add/decr trace from the initial
state for `maxDataSize = 0` satisfies the invariant. -/
theorem backfill_invariant_canAdd_decr_witness :
    backfillInv (backfillRun (mkDcpConnMap 0)
      [BackfillOp.canAdd, BackfillOp.decr, BackfillOp.canAdd]) :=
  backfill_invariant_canAdd_decr 0
    [BackfillOp.canAdd, BackfillOp.decr, BackfillOp.canAdd] (by decide)

/-- C8: the counter `numActiveSnoozingBackfills` stays nonnegative along every
operation sequence from the initial state; `decrNumActiveSnoozingBackfills`
decrements exactly when the counter is strictly positive and leaves a zero
counter at zero; and `canAddBackfillToActiveQ` leaves the state unchanged
whenever it returns false. -/
theorem numActiveSnoozingBackfills_guarded :
    (∀ (maxDataSize : Nat) (ops : List BackfillOp),
        0 ≤ (backfillRun (mkDcpConnMap maxDataSize) ops).numActiveSnoozingBackfills)
    ∧ (∀ st : BackfillState, 0 < st.numActiveSnoozingBackfills →
        (decrNumActiveSnoozingBackfills st).numActiveSnoozingBackfills
          = st.numActiveSnoozingBackfills - 1)
    ∧ (∀ st : BackfillState, st.numActiveSnoozingBackfills = 0 →
        (decrNumActiveSnoozingBackfills st).numActiveSnoozingBackfills = 0)
    ∧ (∀ st : BackfillState, (canAddBackfillToActiveQ st).2 = false →
        (canAddBackfillToActiveQ st).1 = st) := by
  refine ⟨?_, ?_, ?_, ?_⟩
  · intro maxDataSize ops
    exact backfillRun_nonneg ops _ le_rfl
  · intro st hpos
    unfold decrNumActiveSnoozingBackfills
    rw [if_pos hpos]
  · intro st hz
    unfold decrNumActiveSnoozingBackfills
    rw [if_neg (by omega)]
    exact hz
  · intro st hfalse
    unfold canAddBackfillToActiveQ at hfalse ⊢
    split at hfalse
    · exact absurd hfalse (by simp)
    · rw [if_neg (by assumption)]

/-- Witness for C8: concrete instances of each guarded behaviour. -/
theorem numActiveSnoozingBackfills_guarded_witness :
    0 ≤ (backfillRun (mkDcpConnMap 0) [BackfillOp.decr]).numActiveSnoozingBackfills
    ∧ (decrNumActiveSnoozingBackfills ⟨2, 5⟩).numActiveSnoozingBackfills = 1
    ∧ (decrNumActiveSnoozingBackfills ⟨0, 5⟩).numActiveSnoozingBackfills = 0
    ∧ (canAddBackfillToActiveQ ⟨5, 5⟩).1 = ⟨5, 5⟩ :=
  ⟨numActiveSnoozingBackfills_guarded.1 0 [BackfillOp.decr],
   numActiveSnoozingBackfills_guarded.2.1 ⟨2, 5⟩ (by decide),
   numActiveSnoozingBackfills_guarded.2.2.1 ⟨0, 5⟩ rfl,
   numActiveSnoozingBackfills_guarded.2.2.2 ⟨5, 5⟩ (by decide)⟩

/-- C4: a single vbucket id never appears twice in the checkpoint-processor
work queue: `pushUnique` enqueues a stream only when its vbucket id is absent
from `queuedVbuckets` (and is a no-op otherwise), `queuePop` erases the popped
vbucket id, and the invariant that the queued vbucket ids are duplicate-free
and coincide with `queuedVbuckets` is preserved by every `pushUnique` and every
`queuePop`. -/
theorem checkpointProcessor_queue_dedup (st : CkptProcState) (h : ckptInv st) :
    (∀ s : StreamT, ckptInv (pushUnique s st))
    ∧ (∀ s : StreamT, s.vb ∈ st.queuedVbuckets → pushUnique s st = st)
    ∧ ckptInv (queuePop st).2 := by
  unfold ckptInv at h
  obtain ⟨hnd, hfin⟩ := h
  refine ⟨?_, ?_, ?_⟩
  · intro s
    unfold ckptInv pushUnique
    split
    · exact ⟨hnd, hfin⟩
    · next hnotin =>
      have hnotin2 : s.vb ∉ st.queue.map StreamT.vb := by
        intro hmem
        exact hnotin (hfin ▸ List.mem_toFinset.mpr hmem)
      constructor
      · simp [List.nodup_append, hnd, hnotin2]
      · simp [List.toFinset_append, hfin, Finset.insert_eq, Finset.union_comm]
  · intro s hs
    unfold pushUnique
    rw [if_pos hs]
  · unfold ckptInv
    cases hq : st.queue with
    | nil =>
      simp only [queuePop, hq]
      exact ⟨hq ▸ hnd, hq ▸ hfin⟩
    | cons s rest =>
      rw [hq] at hnd hfin
      simp only [queuePop, hq, List.map_cons] at hnd hfin ⊢
      have hndr := List.nodup_cons.mp hnd
      refine ⟨hndr.2, ?_⟩
      rw [hfin, List.toFinset_cons]
      exact Finset.erase_insert (by simpa using hndr.1)

/-- Witness for C4: the empty processor state satisfies the invariant, and so
does the state after enqueueing a stream for vbucket 3. -/
theorem checkpointProcessor_queue_dedup_witness :
    ckptInv (pushUnique ⟨3⟩ { queue := [], queuedVbuckets := ∅ }) :=
  (checkpointProcessor_queue_dedup { queue := [], queuedVbuckets := ∅ }
    ⟨List.nodup_nil, by simp⟩).1 ⟨3⟩

/-- The name-collision loop marks some connection (with its disconnect flag
set) whenever a connection with the given name is in the list. -/
theorem markAndErase_some (n : String) (l : List Connection)
    (hex : ∃ c ∈ l, c.name = n) :
    ∃ c, (markAndErase n l).2 = some c ∧ c.disconnect = true := by
  induction l with
  | nil => simp at hex
  | cons c rest ih =>
    unfold markAndErase
    by_cases hc : c.name = n
    · rw [if_pos hc]
      exact ⟨{ c with disconnect := true }, rfl, rfl⟩
    · rw [if_neg hc]
      obtain ⟨c0, hc0, hcn⟩ := hex
      rcases List.mem_cons.mp hc0 with rfl | hc0r
      · exact absurd hcn hc
      · exact ih ⟨c0, hc0r, hcn⟩

/-- C5: for both `newProducer` and `newConsumer`, the logical connection name
is the user-supplied name prefixed with the protocol tag `eq_dcpq:`; if a
connection with that logical name already exists in the registry, a connection
is marked for disconnect (its disconnect flag set) before the insertion; and
after the call the new connection is present in both the ordered list `all`
and the cookie-indexed map. -/
theorem newProducer_newConsumer_spec (st : ConnMapState) (cookie : Nat)
    (name : String) (notifyOnly : Bool) :
    ((newConsumer st cookie name).2.1.name = "eq_dcpq:" ++ name)
    ∧ ((∃ c ∈ st.all, c.name = "eq_dcpq:" ++ name) →
        ∃ c, (newConsumer st cookie name).2.2 = some c ∧ c.disconnect = true)
    ∧ ((newConsumer st cookie name).2.1 ∈ (newConsumer st cookie name).1.all)
    ∧ ((newConsumer st cookie name).1.map_ cookie = some (newConsumer st cookie name).2.1)
    ∧ ((newProducer st cookie name notifyOnly).2.1.name = "eq_dcpq:" ++ name)
    ∧ ((∃ c ∈ st.all, c.name = "eq_dcpq:" ++ name) →
        ∃ c, (newProducer st cookie name notifyOnly).2.2 = some c ∧ c.disconnect = true)
    ∧ ((newProducer st cookie name notifyOnly).2.1
        ∈ (newProducer st cookie name notifyOnly).1.all)
    ∧ ((newProducer st cookie name notifyOnly).1.map_ cookie
        = some (newProducer st cookie name notifyOnly).2.1) := by
  refine ⟨rfl, ?_, ?_, ?_, rfl, ?_, ?_, ?_⟩
  · intro hex
    exact markAndErase_some _ _ hex
  · simp [newConsumer]
  · simp [newConsumer]
  · intro hex
    exact markAndErase_some _ _ hex
  · simp [newProducer]
  · simp [newProducer]

/-- Witness for C5: creating a consumer and a producer named `rep` over a
registry already holding a connection with logical name `eq_dcpq:rep` marks a
connection for disconnect, and the insertion facts hold. -/
theorem newProducer_newConsumer_spec_witness :
    (∃ c, (newConsumer stA 2 "rep").2.2 = some c ∧ c.disconnect = true)
    ∧ (newConsumer stA 2 "rep").2.1 ∈ (newConsumer stA 2 "rep").1.all
    ∧ (∃ c, (newProducer stA 2 "rep" false).2.2 = some c ∧ c.disconnect = true)
    ∧ (newProducer stA 2 "rep" false).1.map_ 2 = some (newProducer stA 2 "rep" false).2.1 :=
  ⟨(newProducer_newConsumer_spec stA 2 "rep" false).2.1
      ⟨connA, List.mem_singleton_self connA, rfl⟩,
   (newProducer_newConsumer_spec stA 2 "rep" false).2.2.1,
   (newProducer_newConsumer_spec stA 2 "rep" false).2.2.2.2.2.1
      ⟨connA, List.mem_singleton_self connA, rfl⟩,
   (newProducer_newConsumer_spec stA 2 "rep" false).2.2.2.2.2.2.2⟩

/-- C6: in one `manageConnections` pass, a notifiable connection that is
reserved and paused (or marked for disconnect) receives a `notifyIOComplete`
wakeup exactly when it has not yet been sent a notify or its
`lastWalkTime + maxIdleTime` (with `maxIdleTime = 5`) is earlier than now;
every notified connection satisfies the full collection condition, so
connections not meeting it are not notified in that pass. -/
theorem manageConnections_notify_condition (now : Nat) (dead map_ : List ReaperConn) :
    (∀ c ∈ map_, c.notifiable = true → c.reserved = true →
      (c.paused = true ∨ c.doDisconnect = true) →
      (c ∈ (manageConnections now dead map_).2 ↔
        (c.sentNotify = false ∨ c.lastWalkTime + maxIdleTime < now)))
    ∧ (∀ c, c ∈ (manageConnections now dead map_).2 → shouldCollect now c = true) := by
  constructor
  · intro c hc hn hr hpd
    simp only [manageConnections, List.mem_filter]
    rcases hpd with hp | hd
    · simp [shouldCollect, hn, hr, hc, hp]
    · simp [shouldCollect, hn, hr, hc, hd]
  · intro c hcmem
    simp only [manageConnections, List.mem_filter] at hcmem
    exact hcmem.1.2

/-- Witness for C6: a paused, reserved, never-notified connection is notified
in the pass. -/
theorem manageConnections_notify_condition_witness :
    reaperW ∈ (manageConnections 0 [] [reaperW]).2 :=
  ((manageConnections_notify_condition 0 [] [reaperW]).1 reaperW
    (List.mem_singleton_self reaperW) rfl rfl (Or.inl rfl)).mpr (Or.inl rfl)

/-- C9: for every cookie with no engine-specific consumer attached, both
`uprMutation` and `uprDeletion` return `ENGINE_DISCONNECT` with an empty effect
list, so no mutation or deletion is applied to any vbucket. -/
theorem uprMutation_uprDeletion_null_engineSpecific (ctx : EngineCtx)
    (cookie opq : Nat) (key : List Nat) (nkey : Nat) (value : List Nat)
    (nvalue cas vbucket flags datatype bySeqno revSeqno expiration lockTime : Nat)
    (h : ctx.getEngineSpecific cookie = none) :
    uprMutation ctx cookie opq key nkey value nvalue cas vbucket flags datatype
        bySeqno revSeqno expiration lockTime
      = (ENGINE_ERROR_CODE.ENGINE_DISCONNECT, [])
    ∧ uprDeletion ctx cookie opq key nkey cas vbucket bySeqno revSeqno
      = (ENGINE_ERROR_CODE.ENGINE_DISCONNECT, []) := by
  constructor
  · unfold uprMutation
    rw [h]
  · unfold uprDeletion
    rw [h]

/-- Witness for C9: with the context that attaches no consumer to any cookie,
both entry points disconnect with no effects. -/
theorem uprMutation_uprDeletion_null_engineSpecific_witness :
    uprMutation nullCtx 0 0 [] 0 [] 0 0 0 0 0 0 0 0 0
      = (ENGINE_ERROR_CODE.ENGINE_DISCONNECT, [])
    ∧ uprDeletion nullCtx 0 0 [] 0 0 0 0 0
      = (ENGINE_ERROR_CODE.ENGINE_DISCONNECT, []) :=
  uprMutation_uprDeletion_null_engineSpecific nullCtx 0 0 [] 0 [] 0 0 0 0 0 0 0 0 0 rfl
